import Mathlib

/-
Shallow embedding of the combat-resolution core of the `dnd-combat-sim`
repository, together with theorems settling the frozen claims about it.

The embedding follows the Python source files:
  * `dnd_combat_sim/creature.py`  (Creature state, take_damage, heal,
    roll_death_save, start_turn, spawn, get_damage_taken, _die,
    _reset_death_saves, _is_crit)
  * `dnd_combat_sim/dice.py`      (roll_d20)
  * `dnd_combat_sim/encounter.py` (Encounter1v1.take_turn, run_encounter,
    _check_if_hits, _get_attack_modifiers merge step)
  * `dnd_combat_sim/attack.py`    (AttackRoll, AttackDamage)
  * `dnd_combat_sim/traits/creature_traits.py` (MartialAdvantage)

Conventions of the embedding:
  * Python `int` values that are provably non-negative in every reachable
    state (hit points, damage amounts, death-save tallies, dice) are `Nat`;
    attack-roll modifiers, armor class and grid coordinates, which can be
    negative, are `Int`.
  * Python `random.randint(1, 20)` outcomes are passed in as explicit
    arguments, so every function is a deterministic function of its dice.
  * A Python `set` of conditions is a duplicate-free `List` under
    `condInsert` / `condErase` below; only membership, insertion and
    removal are ever used by the embedded code.
  * Fallible code (code that raises at runtime) returns `Except Unit`.
-/

namespace DndSim

/-- Damage types, from the `DamageType` enum in `rules.py`. -/
inductive DamageType
  | acid | bludgeoning | cold | fire | force | lightning | necrotic
  | piercing | poison | psychic | radiant | slashing | thunder
deriving DecidableEq

/-- Conditions: the complete member list of the `Condition` enum in
`rules.py`.  The source additionally references `Condition.stable`
(creature.py line 469) and `Condition.unseen` (encounter.py lines 263 and
274); neither is a member of the enum, so evaluating either expression
raises `AttributeError` - the embedding models the code paths that reach
those expressions as `Except.error`. -/
inductive Condition
  | blinded | charmed | deafened | frightened | grappled | incapacitated
  | invisible | paralyzed | petrified | poisoned | prone | restrained
  | stunned | unconscious | dying | dead
deriving DecidableEq

/-- Modelled from the spec: the outcome states of the damage / death-save
state machine (spec section 4.3): `alive`, `knocked_out`, `still_dying`,
`dead`, `instant_death`, `reanimated`.  The Python source imports
`DamageOutcome` (in `creature.py`, `trait.py`, `log.py`) but its enum
declaration is not present under `src/`; the member names are exactly the
ones the source code uses. -/
inductive DamageOutcome
  | alive | knocked_out | still_dying | dead | instant_death | reanimated
deriving DecidableEq

/-- Result strings returned by `Creature.roll_death_save`. -/
inductive DeathSaveResult
  | critical_failure | failure | success | stabilised | critical_success
  | death
deriving DecidableEq

/-- Python `set.add`: add an element to a condition set (no duplicates). -/
def condInsert (conds : List Condition) (c : Condition) : List Condition :=
  if c ∈ conds then conds else conds ++ [c]

/-- Python `set.discard`: remove an element from a condition set. -/
def condErase (conds : List Condition) (c : Condition) : List Condition :=
  conds.filter (fun x => x ≠ c)

/-- The damage component map `AttackDamage.damages` from `attack.py`: a dict
from damage type to a non-negative amount, embedded as an association list
in dict insertion order (keys distinct). -/
def AttackDamage : Type := List (DamageType × Nat)

/-- The `AttackDamage.total` property from `attack.py`: sum of all damage
components. -/
def damageTotal (damage : AttackDamage) : Nat :=
  (damage.map Prod.snd).sum

/-- The mutable combat state of a `Creature` (from `creature.py`), restricted
to the fields read or written by the embedded methods. -/
structure Creature where
  hp : Nat
  max_hp : Nat
  conditions : List Condition
  death_save_successes : Nat
  death_save_failures : Nat
  make_death_saves : Bool
  speed : Nat
  remaining_movement : Nat
  attack_used : Bool
  weapons_used_this_turn : List String
  bonus_action_used : Bool
  reaction_used : Bool
  has_hit_dice : Bool
  immunities : List DamageType
  resistances : List DamageType
  vulnerabilities : List DamageType
deriving DecidableEq

/-- The private method `Creature._die`: add the `dead` condition, discard
`dying` and `unconscious`.  (In the source it also returns
`DamageOutcome.dead`; callers that use that value pair it up themselves.) -/
def die (c : Creature) : Creature :=
  { c with conditions :=
      condErase (condErase (condInsert c.conditions .dead) .dying) .unconscious }

/-- The method `Creature.heal(amount, wake_up)`: recover hit points, capped
at `max_hp`, and discard the `dead` and `dying` conditions (plus
`unconscious` when `wake_up`). -/
def heal (c : Creature) (amount : Nat) (wake_up : Bool) : Creature :=
  let conds := condErase (condErase c.conditions .dead) .dying
  { c with
      hp := min (c.hp + amount) c.max_hp
      conditions := if wake_up then condErase conds .unconscious else conds }

/-- The method `Creature.take_damage(damage, crit)` from `creature.py`
(lines 533-563).  `damage_taken = min(total, hp)`;
`excess = total - damage_taken` (truncated subtraction on `Nat` coincides
with Python's `max(0, D - H)` here); instant death when the excess exceeds
`max_hp`; otherwise survive, accumulate a death-save failure while already
dying, get knocked out when making death saves, or die outright. -/
def take_damage (c : Creature) (damage : AttackDamage) (crit : Bool) :
    Creature × DamageOutcome :=
  let total_damage := damageTotal damage
  let damage_taken := min total_damage c.hp
  let excess_damage := total_damage - damage_taken
  let c1 := { c with hp := c.hp - damage_taken }
  if excess_damage > c1.max_hp then
    (die c1, .instant_death)
  else if c1.hp > 0 then
    (c1, .alive)
  else if Condition.dying ∈ c1.conditions then
    let c2 := { c1 with death_save_failures :=
      c1.death_save_failures + (if crit then 2 else 1) }
    if c2.death_save_failures ≥ 3 then (die c2, .dead) else (c2, .still_dying)
  else if c1.make_death_saves then
    ({ c1 with conditions :=
        condInsert (condInsert c1.conditions .unconscious) .dying },
     .knocked_out)
  else
    (die c1, .dead)

/-- The private method `Creature._reset_death_saves(wake_up)`: zero the
tally, discard `dying` (and `unconscious` when `wake_up`). -/
def reset_death_saves (c : Creature) (wake_up : Bool) : Creature :=
  let c1 := { c with
      death_save_successes := 0
      death_save_failures := 0
      conditions := condErase c.conditions .dying }
  if wake_up then { c1 with conditions := condErase c1.conditions .unconscious }
  else c1

/-- The method `Creature.roll_death_save` from `creature.py` (lines
452-480), as a function of the d20 outcome `d20`.  The `result` variable is
an `Option` because Python leaves it unbound when `d20` is outside 1..20
(unreachable from `roll_d20`).  On a third success the source evaluates
`Condition.stable` (line 469), which is not a member of the `Condition`
enum, so that branch raises `AttributeError` before `_reset_death_saves`
runs, leaving `dying` set; it is modelled as `Except.error ()` (the
in-place increment of the success tally that precedes the raise is
unobservable, since no caller catches the exception). -/
def death_save_step (c : Creature) (d20 : Nat) :
    Except Unit (Creature × Option DeathSaveResult) :=
  if d20 = 1 then
    .ok ({ c with death_save_failures := c.death_save_failures + 2 },
      some .critical_failure)
  else if 2 ≤ d20 ∧ d20 ≤ 9 then
    .ok ({ c with death_save_failures := c.death_save_failures + 1 },
      some .failure)
  else if 10 ≤ d20 ∧ d20 ≤ 19 then
    let c1 := { c with death_save_successes := c.death_save_successes + 1 }
    if c1.death_save_successes = 3 then
      .error ()
    else
      .ok (c1, some .success)
  else if d20 = 20 then
    .ok (reset_death_saves (heal c 1 true) false, some .critical_success)
  else
    .ok (c, none)

/-- The final clause of `Creature.roll_death_save` (creature.py lines
476-480): when the `if/elif` chain returned normally, three or more
accumulated failures kill the creature and overwrite the result. -/
def roll_death_save (c : Creature) (d20 : Nat) :
    Except Unit (Creature × Option DeathSaveResult) :=
  match death_save_step c d20 with
  | .error e => .error e
  | .ok (c1, result) =>
      if c1.death_save_failures ≥ 3 then .ok (die c1, some .death)
      else .ok (c1, result)

/-- The method `Creature.start_turn` from `creature.py` (lines 516-531):
reset transient per-turn state, then roll a death save when `dying`; the
`AttributeError` a third death-save success raises propagates to the
caller. -/
def start_turn (c : Creature) (d20 : Nat) : Except Unit Creature :=
  let c1 := { c with
      remaining_movement := c.speed
      attack_used := false
      weapons_used_this_turn := ([] : List String)
      bonus_action_used := false
      reaction_used := false }
  if Condition.dying ∈ c1.conditions then
    match roll_death_save c1 d20 with
    | .error e => .error e
    | .ok r => .ok r.1
  else .ok c1

/-- The private method `Creature._roll_hit_points` (creature.py lines
833-838) as a function of the raw value `roll(dice) + const_mod *
num_hit_die` (an integer that can be negative when the constitution
modifier is); the result is `int(max(hp, 1))`, always at least 1. -/
def roll_hit_points (raw : Int) : Nat :=
  (max raw 1).toNat

/-- The method `Creature.spawn` from `creature.py` (lines 498-514): deep
copy, re-roll hit points when the creature has hit dice (`raw` is the
dice-plus-modifier value fed to `_roll_hit_points`), call `start_turn()` -
which rolls a death save on `d20` while the parent's `dying` condition is
still present, and therefore raises when that save is a third success -
then clear conditions and the death-save tally. -/
def spawn (c : Creature) (raw : Int) (d20 : Nat) : Except Unit Creature :=
  let c1 :=
    if c.has_hit_dice then
      { c with hp := roll_hit_points raw, max_hp := roll_hit_points raw }
    else { c with hp := c.max_hp }
  match start_turn c1 d20 with
  | .error e => .error e
  | .ok c2 =>
      .ok { c2 with
        conditions := ([] : List Condition)
        death_save_successes := 0
        death_save_failures := 0 }

/-- The function `roll_d20(advantage, disadvantage)` from `dice.py` (lines
5-17), as a function of the two underlying `random.randint(1, 20)` outcomes
`d1` and `d2`.  The source takes the first roll, then upgrades it with
`max` under `if advantage:` and with `min` under `elif disadvantage:`; the
`lucky` parameter is left at its default `False` by every caller in the
attack pipeline and is omitted. -/
def roll_d20 (advantage disadvantage : Bool) (d1 d2 : Nat) : Nat :=
  if advantage then max d1 d2
  else if disadvantage then min d1 d2
  else d1

/-- Truthiness of a keyword argument taken from the `modifiers` dict built
by `Encounter1v1._get_attack_modifiers`: the argument is absent (Python
default `False`) or a cause string, and a string is truthy iff non-empty.
`Encounter1v1.attack` forwards these values as the `advantage` /
`disadvantage` booleans via `roll_attack(weapon, thrown=thrown,
**attack_modifiers)`. -/
def kwargTruthy : Option String → Bool
  | some cause => !(cause == "")
  | none => false

/-- The merge loop at the end of `Encounter1v1._get_attack_modifiers`
(encounter.py lines 302-311): each source dict contributes
`(cause, modifier)` pairs, written into one dict as
`modifiers[modifier] = cause` in order, so a later cause for the same
modifier kind overwrites an earlier one.  The result records the final
cause stored under the key `advantage` and under the key
`disadvantage` (the only modifier kinds the sources produce). -/
def mergeModifiers (pairs : List (String × String)) :
    Option String × Option String :=
  pairs.foldl
    (fun acc cm =>
      if cm.2 = "advantage" then (some cm.1, acc.2)
      else if cm.2 = "disadvantage" then (acc.1, some cm.1)
      else acc)
    (none, none)

/-- The attacker-conditions loop of `Encounter1v1._get_attack_modifiers`
(encounter.py lines 261-270), over the tags of the attacker's temporary
conditions: each iteration first evaluates the guard's set literal of
`Condition.invisible` and `Condition.unseen`, and `Condition.unseen` is
not a member of the enum, so the first temporary condition raises
`AttributeError`; only an attacker with no temporary conditions yields a
(then empty) modifier dict. -/
def attacker_condition_modifiers :
    List Condition → Except Unit (List (String × String))
  | [] => .ok []
  | _ :: _ => .error ()

/-- The target-conditions loop of `Encounter1v1._get_attack_modifiers`
(encounter.py lines 272-292), whose first guard evaluates the same broken
set literal (line 274): empty modifier dict for a target with no temporary
conditions, `AttributeError` on the first one otherwise - in particular
before a prone, restrained, stunned, petrified, paralyzed or unconscious
target can contribute its advantage modifier. -/
def target_condition_modifiers :
    List Condition → Except Unit (List (String × String))
  | [] => .ok []
  | _ :: _ => .error ()

/-- The `AttackRoll` value built in `attack.py` (`total = rolled +
modifier`) as returned by `Creature.roll_attack`, which passes
`crit = self._is_crit(rolled)`, i.e. `rolled == 20`. -/
structure AttackRoll where
  rolled : Nat
  modifier : Int
  is_crit : Bool
deriving DecidableEq

/-- The `total` attribute set in `AttackRoll.__init__`. -/
def AttackRoll.total (ar : AttackRoll) : Int :=
  (ar.rolled : Int) + ar.modifier

/-- The private method `Creature._is_crit(rolled)`: a natural 20. -/
def is_crit (rolled : Nat) : Bool :=
  rolled == 20

/-- The `AttackRoll` constructed at the end of `Creature.roll_attack`
(creature.py line 422): `AttackRoll(rolled, modifier, self._is_crit(rolled),
weapon)`. -/
def mkAttackRoll (rolled : Nat) (modifier : Int) : AttackRoll :=
  { rolled := rolled, modifier := modifier, is_crit := is_crit rolled }

/-- The method `Encounter1v1._check_if_hits(target, attack_roll)` from
`encounter.py` (lines 197-207): miss iff (`total < target.ac` and not a
crit) or the natural roll was a 1; otherwise hit. -/
def check_if_hits (target_ac : Int) (attack_roll : AttackRoll) : Bool :=
  if (attack_roll.total < target_ac ∧ ¬attack_roll.is_crit = true)
      ∨ attack_roll.rolled = 1 then
    false
  else
    true

/-- The loop body of `Creature.get_damage_taken` (creature.py lines
369-380) applied to the components of the (deep-copied) damage dict in
iteration order.  The source iterates over `attack_damage.damages` and
calls `attack_damage.damages.pop(dtype)` for an immune type; in CPython,
removing a key from a dict while iterating over it makes the very next
advance of the iterator raise `RuntimeError: dictionary changed size
during iteration`, so any component whose type the creature is immune to
aborts the whole call, which is modelled as `Except.error ()`.
Vulnerability doubles and resistance halves (floor division) in place,
which does not change the dict size. -/
def applyDefenses (imm vuln res : List DamageType) :
    AttackDamage → Except Unit AttackDamage
  | [] => .ok []
  | (dtype, amount) :: rest =>
      if dtype ∈ imm then .error ()
      else
        match applyDefenses imm vuln res rest with
        | .error e => .error e
        | .ok tail =>
            .ok ((dtype,
                  if dtype ∈ vuln then amount * 2
                  else if dtype ∈ res then amount / 2
                  else amount) :: tail)

/-- The method `Creature.get_damage_taken(attack_damage)`. -/
def get_damage_taken (c : Creature) (attack_damage : AttackDamage) :
    Except Unit AttackDamage :=
  applyDefenses c.immunities c.vulnerabilities c.resistances attack_damage

/-- An ally as seen by `MartialAdvantage.on_roll_damage` through
`battle.get_allies(creature)`: a grid position and a condition set.  The
trait's body reads only the condition set. -/
structure Ally where
  position : Int × Int
  conditions : List Condition

/-- Update `damage_roll.damages[list(damage_roll.damages.keys())[0]] +=
extra` from `MartialAdvantage.on_roll_damage`: add the extra damage to the
first component of the dict.  (On an empty dict the Python expression
would raise `IndexError`; the hook only runs for an attack that hit, whose
damage dict is non-empty.) -/
def addExtraToPrimary (damage : AttackDamage) (extra : Nat) : AttackDamage :=
  match damage with
  | [] => []
  | (dtype, amount) :: rest => (dtype, amount + extra) :: rest

/-- The hook `MartialAdvantage.on_roll_damage` from
`traits/creature_traits.py` (lines 156-175), as a function of the trait
state `last_used`, the battle round, the attacker's allies, the target's
position, and the `roll("2d6")` outcome `extra`.  If the trait was already
used this round the roll is returned unchanged; otherwise the first ally
whose conditions do not include `incapacitated` triggers the extra damage
on the primary damage type and marks the trait used this round.  The
target's position and the allies' positions are never read: the source
performs no distance check.  Returns the damage together with the new
`last_used` state. -/
def martial_advantage_on_roll_damage (last_used : Option Nat)
    (battle_round : Nat) (allies : List Ally) (_target_pos : Int × Int)
    (extra : Nat) (damage_roll : AttackDamage) :
    AttackDamage × Option Nat :=
  if last_used = some battle_round then (damage_roll, last_used)
  else
    match allies.find? (fun ally =>
        decide (Condition.incapacitated ∉ ally.conditions)) with
    | some _ => (addExtraToPrimary damage_roll extra, some battle_round)
    | none => (damage_roll, last_used)

/-- The Python value returned by `Encounter1v1.take_turn` (encounter.py
lines 86-123): the `enemy` creature object (line 93), `None` (line 106 and
the final `return False` path collapses the falsy cases), `True` (line
115), or the `damage_outcome` value (always `None`, since
`Encounter1v1.attack` has no return value). -/
inductive TurnResult
  | enemyObj
  | skipNone
  | wonTrue
  | attackOutcomeNone
  | finishedFalse
deriving DecidableEq

/-- Python truthiness of a `take_turn` return value: a `Creature` object
and `True` are truthy; `None` and `False` are falsy. -/
def TurnResult.truthy : TurnResult → Bool
  | .enemyObj => true
  | .wonTrue => true
  | _ => false

/-- The action phase of a turn (choose_action / attack / dash, encounter.py
lines 108-123), abstracted as a state transformer on (me, enemy) that also
yields the Python return value of `take_turn` for that path.  The claims
settled here are decided before this phase runs, so the theorems quantify
over it. -/
def ActionPhase : Type :=
  Creature → Creature → Creature × Creature × TurnResult

/-- The method `Encounter1v1.take_turn(creature)` (encounter.py lines
86-123) for the creature `me` against `enemy`: start the turn (rolling a
death save on `d20` when dying, whose stabilisation `AttributeError`
propagates), return the enemy object if `me` is dead after that, skip the
turn under the listed conditions, and otherwise run the action phase. -/
def take_turn (action : ActionPhase) (me enemy : Creature) (d20 : Nat) :
    Except Unit (Creature × Creature × TurnResult) :=
  match start_turn me d20 with
  | .error e => .error e
  | .ok me1 =>
      if Condition.dead ∈ me1.conditions then
        .ok (me1, enemy, .enemyObj)
      else if Condition.dead ∈ me1.conditions
          ∨ Condition.paralyzed ∈ me1.conditions
          ∨ Condition.petrified ∈ me1.conditions
          ∨ Condition.stunned ∈ me1.conditions
          ∨ Condition.unconscious ∈ me1.conditions then
        .ok (me1, enemy, .skipNone)
      else
        .ok (action me1 enemy)

/-- State of a 1v1 encounter: the two creatures, listed in initiative
order (`c1` acts first each round). -/
structure Enc where
  c1 : Creature
  c2 : Creature
deriving DecidableEq

/-- The inner `for creature in self.initiative` loop of one round of
`Encounter1v1.run_encounter` (encounter.py lines 64-67): each creature
takes a turn with its death-save die; a truthy `take_turn` result makes
`run_encounter` immediately return that same creature (the turn taker) as
the winner.  Returns the updated pair and `some true` / `some false` when
the first / second creature is returned as winner. -/
def runRound (action : ActionPhase) (d1 d2 : Nat) (e : Enc) :
    Except Unit (Enc × Option Bool) :=
  match take_turn action e.c1 e.c2 d1 with
  | .error err => .error err
  | .ok r1 =>
      let e1 : Enc := { c1 := r1.1, c2 := r1.2.1 }
      if (r1.2.2).truthy then .ok (e1, some true)
      else
        match take_turn action e1.c2 e1.c1 d2 with
        | .error err => .error err
        | .ok r2 =>
            let e2 : Enc := { c1 := r2.2.1, c2 := r2.1 }
            if (r2.2.2).truthy then .ok (e2, some false)
            else .ok (e2, none)

/-- The `while` loop of `Encounter1v1.run_encounter` (encounter.py lines
56-73), with `dice` the stream of death-save d20 outcomes (turn `t` of
round `r` consumes `dice (2 * r + t)`).  The loop stops with `none`
(Python's implicit `None`: a stalemate, or a dead creature observed at the
top of the loop) or with `some (b, e)` where `b` tells which creature was
returned as the winner and `e` is the final state.  `fuel` bounds the
recursion; `run_encounter` supplies `max_rounds + 1`, which the round cap
makes sufficient. -/
def runEncounterAux (action : ActionPhase) (dice : Nat → Nat)
    (max_rounds : Nat) : Nat → Nat → Enc → Except Unit (Option (Bool × Enc))
  | 0, _, _ => .ok none
  | fuel + 1, round, e =>
      if Condition.dead ∈ e.c1.conditions
          ∨ Condition.dead ∈ e.c2.conditions then
        .ok none
      else
        match runRound action (dice (2 * round)) (dice (2 * round + 1)) e with
        | .error err => .error err
        | .ok step =>
            match step.2 with
            | some b => .ok (some (b, step.1))
            | none =>
                if round + 1 > max_rounds then .ok none
                else
                  runEncounterAux action dice max_rounds fuel (round + 1) step.1

/-- The method `Encounter1v1.run_encounter(max_rounds)` (encounter.py lines
56-73), starting from round 1; an uncaught exception from a death save
propagates out of the whole run. -/
def run_encounter (action : ActionPhase) (dice : Nat → Nat)
    (max_rounds : Nat) (e : Enc) : Except Unit (Option (Bool × Enc)) :=
  runEncounterAux action dice max_rounds (max_rounds + 1) 1 e

/-- The creature state invariant exactly as the spec words it (sections 3
and 8): `0 <= current_hp <= max_hp` (the lower bound is inherent in `Nat`),
`current_hp == 0` implies the `dying` or the `dead` condition is set, and
`dead` and `dying` are never simultaneously set. -/
def specInvariant (c : Creature) : Prop :=
  c.hp ≤ c.max_hp
    ∧ (c.hp = 0 → Condition.dying ∈ c.conditions ∨ Condition.dead ∈ c.conditions)
    ∧ ¬(Condition.dead ∈ c.conditions ∧ Condition.dying ∈ c.conditions)

/-- A concrete healthy creature used to instantiate theorems: 10/10 HP, no
conditions, makes death saves. -/
def baseCreature : Creature :=
  { hp := 10
    max_hp := 10
    conditions := []
    death_save_successes := 0
    death_save_failures := 0
    make_death_saves := true
    speed := 30
    remaining_movement := 30
    attack_used := false
    weapons_used_this_turn := []
    bonus_action_used := false
    reaction_used := false
    has_hit_dice := true
    immunities := []
    resistances := []
    vulnerabilities := [] }

/-- A concrete creature at 0 HP that is unconscious and dying (the state
`take_damage` leaves after a knock-out). -/
def dyingCreature : Creature :=
  { baseCreature with
      hp := 0
      conditions := [Condition.unconscious, Condition.dying] }

/-- A concrete dying creature that has already failed two death saves. -/
def almostDeadCreature : Creature :=
  { dyingCreature with death_save_failures := 2 }

/-- A concrete creature that is immune to fire and resistant to fire and
slashing damage. -/
def fireImmuneCreature : Creature :=
  { baseCreature with
      hp := 20
      max_hp := 20
      immunities := [DamageType.fire]
      resistances := [DamageType.fire, DamageType.slashing] }

/-- Decidable check used to state the outcome of the encounter at the C4
failing input: the run returned normally with a winner, the winner is the
first creature, the first creature is dead and the second is not. -/
def winnerIsDeadCreature : Except Unit (Option (Bool × Enc)) → Bool
  | .ok (some (b, e)) =>
      b && decide (Condition.dead ∈ e.c1.conditions)
        && decide (Condition.dead ∉ e.c2.conditions)
  | _ => false

/-- A concrete dying creature one success away from its third death-save
success. -/
def stabilisingCreature : Creature :=
  { dyingCreature with death_save_successes := 2 }

/-- A concrete dying creature whose max HP is 0 (the constructor accepts
any integer for fixed hit points). -/
def zeroMaxCreature : Creature :=
  { dyingCreature with max_hp := 0 }

/-- A concrete creature at 0 HP that already has the `dead` condition. -/
def deadCreature : Creature :=
  { baseCreature with hp := 0, conditions := [Condition.dead] }

instance (c : Creature) : Decidable (specInvariant c) := by
  unfold specInvariant
  exact inferInstance

theorem mem_condInsert (a b : Condition) (l : List Condition) :
    a ∈ condInsert l b ↔ a ∈ l ∨ a = b := by
  unfold condInsert
  by_cases h : b ∈ l
  · simp only [if_pos h]
    constructor
    · exact Or.inl
    · rintro (h1 | rfl)
      · exact h1
      · exact h
  · simp [if_neg h]

theorem mem_condErase (a b : Condition) (l : List Condition) :
    a ∈ condErase l b ↔ a ∈ l ∧ a ≠ b := by
  simp [condErase]

theorem mem_die (a : Condition) (c : Creature) :
    a ∈ (die c).conditions ↔
      (a ∈ c.conditions ∨ a = Condition.dead)
        ∧ a ≠ Condition.dying ∧ a ≠ Condition.unconscious := by
  simp [die, mem_condErase, mem_condInsert, and_assoc]

/-- C10: for every creature, every non-negative healing amount and every
`wake_up` flag, `heal` sets the current HP to `min(current + amount,
max_hp)`, always removes the `dead` and `dying` conditions (and
`unconscious` when `wake_up` is true); in particular `heal` with amount 0
removes the `dead` condition, so `dead` is not terminal under `heal`. -/
theorem heal_spec (c : Creature) (amount : Nat) (wake_up : Bool) :
    (heal c amount wake_up).hp = min (c.hp + amount) c.max_hp
      ∧ Condition.dead ∉ (heal c amount wake_up).conditions
      ∧ Condition.dying ∉ (heal c amount wake_up).conditions
      ∧ Condition.unconscious ∉ (heal c amount true).conditions
      ∧ Condition.dead ∉ (heal c 0 wake_up).conditions := by
  refine ⟨rfl, ?_, ?_, ?_, ?_⟩ <;>
    cases wake_up <;> simp [heal, mem_condErase]

/-- C3: the claimed cancellation never happens, because no attack can even
reach the roll with both an advantage and a disadvantage source recorded:
every advantage source crashes during modifier aggregation.  Any temporary
condition on the attacker or the target makes `_get_attack_modifiers`
raise `AttributeError` (its guards evaluate the nonexistent
`Condition.unseen` before anything else), a creature trait's advantage
dict raises `TypeError` at the merge (a dict key is unhashable), and a
weapon trait's dict result raises `ValueError` when unpacked into
`(reason, modifier)`.  Here a would-be advantage source - a paralyzed
target - aborts the attack instead of being recorded, while a target with
no temporary conditions contributes nothing; and no cancellation rule
exists in the dice helper either: `roll_d20` called with both flags
truthy applies advantage (the `elif` gives it precedence) instead of
rolling plainly. -/
theorem advantage_cancellation_not_implemented :
    target_condition_modifiers [Condition.paralyzed] = Except.error ()
      ∧ target_condition_modifiers [] = Except.ok []
      ∧ attacker_condition_modifiers [Condition.invisible] = Except.error ()
      ∧ (∀ d1 d2 : Nat, roll_d20 true true d1 d2 = max d1 d2)
      ∧ roll_d20 false false 3 17 = 3 :=
  ⟨rfl, rfl, rfl, fun _ _ => rfl, rfl⟩

/-- C5: `get_damage_taken` on a damage roll containing a component of a
type the target is immune to aborts with the modelled `RuntimeError`
(the source pops a key out of the dict it is iterating over) instead of
dropping the component — even though the same call correctly halves a
resisted component when no immune type is present. -/
theorem get_damage_taken_immune_raises :
    get_damage_taken fireImmuneCreature
        [(DamageType.fire, 5), (DamageType.slashing, 4)] = .error ()
    ∧ get_damage_taken fireImmuneCreature
        [(DamageType.slashing, 4)] = .ok [(DamageType.slashing, 2)] :=
  ⟨rfl, rfl⟩

/-- C9: the Martial Advantage damage hook adds its extra 2d6 whenever the
attacker has any non-incapacitated ally, with no check that the target is
within 5 ft of that ally: here the only ally stands 100 ft from the
target (squared distance 10000 > 25) and the extra damage is still added
to the primary damage type, and the trait is marked used this round. -/
theorem martial_advantage_ignores_distance :
    martial_advantage_on_roll_damage none 1
        [{ position := (100, 0), conditions := [] }] (0, 0) 7
        [(DamageType.slashing, 3)]
      = ([(DamageType.slashing, 10)], some 1)
    ∧ ((100 : Int) - 0) ^ 2 + ((0 : Int) - 0) ^ 2 > 5 ^ 2 := by
  constructor
  · rfl
  · norm_num

/-- C7: for an attack roll built by `roll_attack` from a natural d20 roll
and a modifier, `_check_if_hits` reports a hit iff the total meets the
target's armor class and the natural roll is not 1, or the natural roll is
20; in particular a natural 1 always misses and a natural 20 always
hits. -/
theorem hit_check_iff (target_ac : Int) (rolled : Nat) (modifier : Int)
    (h1 : 1 ≤ rolled) (h20 : rolled ≤ 20) :
    (check_if_hits target_ac (mkAttackRoll rolled modifier) = true
        ↔ (((rolled : Int) + modifier ≥ target_ac ∧ rolled ≠ 1) ∨ rolled = 20))
      ∧ (rolled = 1 →
          check_if_hits target_ac (mkAttackRoll rolled modifier) = false)
      ∧ (rolled = 20 →
          check_if_hits target_ac (mkAttackRoll rolled modifier) = true) := by
  by_cases hr1 : rolled = 1 <;> by_cases hr20 : rolled = 20 <;>
    simp_all [check_if_hits, mkAttackRoll, is_crit, AttackRoll.total]

theorem hit_check_iff_witness :
    check_if_hits 15 (mkAttackRoll 20 (-10)) = true :=
  (hit_check_iff 15 20 (-10) (by decide) (by decide)).2.2 rfl

theorem death_save_step_fields (c : Creature) (d20 : Nat)
    (r : Creature × Option DeathSaveResult)
    (h : death_save_step c d20 = Except.ok r) :
    r.1.max_hp = c.max_hp
      ∧ r.1.speed = c.speed
      ∧ r.1.remaining_movement = c.remaining_movement
      ∧ r.1.attack_used = c.attack_used
      ∧ r.1.weapons_used_this_turn = c.weapons_used_this_turn
      ∧ r.1.bonus_action_used = c.bonus_action_used
      ∧ r.1.reaction_used = c.reaction_used
      ∧ (c.hp = c.max_hp → r.1.hp = c.max_hp) := by
  unfold death_save_step reset_death_saves heal at h
  dsimp only at h
  repeat' split at h
  all_goals try exact Except.noConfusion h
  all_goals injection h with h1
  all_goals subst h1
  all_goals simp_all

theorem roll_death_save_fields (c : Creature) (d20 : Nat)
    (r : Creature × Option DeathSaveResult)
    (h : roll_death_save c d20 = Except.ok r) :
    r.1.max_hp = c.max_hp
      ∧ r.1.speed = c.speed
      ∧ r.1.remaining_movement = c.remaining_movement
      ∧ r.1.attack_used = c.attack_used
      ∧ r.1.weapons_used_this_turn = c.weapons_used_this_turn
      ∧ r.1.bonus_action_used = c.bonus_action_used
      ∧ r.1.reaction_used = c.reaction_used
      ∧ (c.hp = c.max_hp → r.1.hp = c.max_hp) := by
  unfold roll_death_save at h
  split at h
  · exact Except.noConfusion h
  · rename_i c1 result heq
    have hs := death_save_step_fields c d20 _ heq
    split at h
    · injection h with h1
      subst h1
      exact ⟨hs.1, hs.2.1, hs.2.2.1, hs.2.2.2.1, hs.2.2.2.2.1,
        hs.2.2.2.2.2.1, hs.2.2.2.2.2.2.1, fun hh => hs.2.2.2.2.2.2.2 hh⟩
    · injection h with h1
      subst h1
      exact hs

theorem start_turn_fields (c : Creature) (d20 : Nat) (c1 : Creature)
    (h : start_turn c d20 = Except.ok c1) :
    c1.max_hp = c.max_hp
      ∧ c1.speed = c.speed
      ∧ c1.remaining_movement = c.speed
      ∧ c1.attack_used = false
      ∧ c1.weapons_used_this_turn = ([] : List String)
      ∧ c1.bonus_action_used = false
      ∧ c1.reaction_used = false
      ∧ (c.hp = c.max_hp → c1.hp = c.max_hp) := by
  unfold start_turn at h
  dsimp only at h
  split at h
  · split at h
    · exact Except.noConfusion h
    · rename_i r heq
      injection h with h1
      subst h1
      have hf := roll_death_save_fields _ d20 _ heq
      exact ⟨hf.1, hf.2.1, hf.2.2.1, hf.2.2.2.1, hf.2.2.2.2.1,
        hf.2.2.2.2.2.1, hf.2.2.2.2.2.2.1,
        fun hh => hf.2.2.2.2.2.2.2 hh⟩
  · injection h with h1
    subst h1
    exact ⟨rfl, rfl, rfl, rfl, rfl, rfl, rfl, fun hh => hh⟩

/-- C8: the round trip does not hold for every prior battle state: `spawn`
calls `start_turn()` before clearing conditions, so a parent that is dying
with two death-save successes makes the internal death save raise the
stabilisation `AttributeError` on a 10-19 roll, and `spawn` raises instead
of returning a creature.  Whenever `spawn` does return normally, the
returned creature has an empty condition set, a zeroed death-save tally,
current HP equal to max HP and reset transient turn state. -/
theorem spawn_raises_or_resets :
    spawn stabilisingCreature 7 10 = Except.error ()
      ∧ ∀ (c : Creature) (raw : Int) (d20 : Nat) (c1 : Creature),
          spawn c raw d20 = Except.ok c1 →
          c1.conditions = []
          ∧ c1.death_save_successes = 0
          ∧ c1.death_save_failures = 0
          ∧ c1.hp = c1.max_hp
          ∧ c1.remaining_movement = c1.speed
          ∧ c1.attack_used = false
          ∧ c1.weapons_used_this_turn = []
          ∧ c1.bonus_action_used = false
          ∧ c1.reaction_used = false := by
  constructor
  · rfl
  · intro c raw d20 c1 h
    unfold spawn at h
    dsimp only at h
    by_cases hd : c.has_hit_dice = true
    · rw [if_pos hd] at h
      split at h
      · exact Except.noConfusion h
      · rename_i c2 heq
        injection h with h1
        subst h1
        have hf := start_turn_fields _ d20 _ heq
        refine ⟨rfl, rfl, rfl, ?_, ?_, ?_, ?_, ?_, ?_⟩
        · exact (hf.2.2.2.2.2.2.2 rfl).trans hf.1.symm
        · exact hf.2.2.1.trans hf.2.1.symm
        · exact hf.2.2.2.1
        · exact hf.2.2.2.2.1
        · exact hf.2.2.2.2.2.1
        · exact hf.2.2.2.2.2.2.1
    · rw [if_neg hd] at h
      split at h
      · exact Except.noConfusion h
      · rename_i c2 heq
        injection h with h1
        subst h1
        have hf := start_turn_fields _ d20 _ heq
        refine ⟨rfl, rfl, rfl, ?_, ?_, ?_, ?_, ?_, ?_⟩
        · exact (hf.2.2.2.2.2.2.2 rfl).trans hf.1.symm
        · exact hf.2.2.1.trans hf.2.1.symm
        · exact hf.2.2.2.1
        · exact hf.2.2.2.2.1
        · exact hf.2.2.2.2.2.1
        · exact hf.2.2.2.2.2.2.1

theorem spawn_raises_or_resets_witness :
    ({ baseCreature with hp := 7, max_hp := 7 } : Creature).conditions = []
      ∧ ({ baseCreature with hp := 7, max_hp := 7 } : Creature).death_save_successes = 0
      ∧ ({ baseCreature with hp := 7, max_hp := 7 } : Creature).death_save_failures = 0
      ∧ ({ baseCreature with hp := 7, max_hp := 7 } : Creature).hp
          = ({ baseCreature with hp := 7, max_hp := 7 } : Creature).max_hp
      ∧ ({ baseCreature with hp := 7, max_hp := 7 } : Creature).remaining_movement
          = ({ baseCreature with hp := 7, max_hp := 7 } : Creature).speed
      ∧ ({ baseCreature with hp := 7, max_hp := 7 } : Creature).attack_used = false
      ∧ ({ baseCreature with hp := 7, max_hp := 7 } : Creature).weapons_used_this_turn = []
      ∧ ({ baseCreature with hp := 7, max_hp := 7 } : Creature).bonus_action_used = false
      ∧ ({ baseCreature with hp := 7, max_hp := 7 } : Creature).reaction_used = false :=
  spawn_raises_or_resets.2 baseCreature 7 5
    ({ baseCreature with hp := 7, max_hp := 7 } : Creature) rfl

theorem td_instant_death (c : Creature) (damage : AttackDamage) (crit : Bool)
    (h : damageTotal damage - c.hp > c.max_hp) :
    (take_damage c damage crit).2 = DamageOutcome.instant_death
      ∧ Condition.dead ∈ (take_damage c damage crit).1.conditions := by
  unfold take_damage
  dsimp only
  rw [if_pos (by omega)]
  exact ⟨rfl, by simp [mem_die]⟩

theorem td_alive (c : Creature) (damage : AttackDamage) (crit : Bool)
    (h : damageTotal damage < c.hp) :
    (take_damage c damage crit).2 = DamageOutcome.alive
      ∧ (take_damage c damage crit).1.hp = c.hp - damageTotal damage := by
  unfold take_damage
  dsimp only
  rw [if_neg (by omega), if_pos (by omega)]
  exact ⟨rfl, by simp; omega⟩

theorem td_outright_dead (c : Creature) (damage : AttackDamage) (crit : Bool)
    (hex : damageTotal damage - c.hp ≤ c.max_hp)
    (hko : c.hp ≤ damageTotal damage)
    (hdy : Condition.dying ∉ c.conditions)
    (hmd : c.make_death_saves = false) :
    (take_damage c damage crit).2 = DamageOutcome.dead
      ∧ Condition.dead ∈ (take_damage c damage crit).1.conditions := by
  unfold take_damage
  dsimp only
  rw [if_neg (by omega), if_neg (by omega), if_neg (by simpa using hdy),
    if_neg (by simp [hmd])]
  exact ⟨rfl, by simp [mem_die]⟩

theorem td_knocked_out (c : Creature) (damage : AttackDamage) (crit : Bool)
    (hex : damageTotal damage - c.hp ≤ c.max_hp)
    (hko : c.hp ≤ damageTotal damage)
    (hdy : Condition.dying ∉ c.conditions)
    (hmd : c.make_death_saves = true) :
    (take_damage c damage crit).2 = DamageOutcome.knocked_out
      ∧ (take_damage c damage crit).1.hp = 0
      ∧ Condition.dying ∈ (take_damage c damage crit).1.conditions
      ∧ Condition.unconscious ∈ (take_damage c damage crit).1.conditions := by
  unfold take_damage
  dsimp only
  rw [if_neg (by omega), if_neg (by omega), if_neg (by simpa using hdy),
    if_pos (by simp [hmd])]
  refine ⟨rfl, by simp; omega, ?_, ?_⟩ <;>
    simp [mem_condInsert, mem_condErase]

theorem td_already_dying (c : Creature) (damage : AttackDamage) (crit : Bool)
    (hex : damageTotal damage - c.hp ≤ c.max_hp)
    (hko : c.hp ≤ damageTotal damage)
    (hdy : Condition.dying ∈ c.conditions) :
    (take_damage c damage crit).1.death_save_failures
        = c.death_save_failures + (if crit then 2 else 1)
      ∧ (c.death_save_failures + (if crit then 2 else 1) ≥ 3 →
          (take_damage c damage crit).2 = DamageOutcome.dead
          ∧ Condition.dead ∈ (take_damage c damage crit).1.conditions)
      ∧ (c.death_save_failures + (if crit then 2 else 1) < 3 →
          (take_damage c damage crit).2 = DamageOutcome.still_dying) := by
  unfold take_damage
  dsimp only
  rw [if_neg (by omega), if_neg (by omega), if_pos (by simpa using hdy)]
  by_cases h3 : c.death_save_failures + (if crit then 2 else 1) ≥ 3
  · rw [if_pos (by simpa using h3)]
    refine ⟨by simp [die], fun _ => ⟨rfl, by simp [mem_die]⟩, fun habs => ?_⟩
    omega
  · rw [if_neg (by simpa using h3)]
    exact ⟨by simp, fun habs => absurd habs h3, fun _ => rfl⟩

/-- C1: the `take_damage` transition rule.  For a creature with current HP
`H` and max HP `M` taking total damage `D`: if `max(0, D - H) > M` the
outcome is `instant_death` and the creature gains the `dead` condition;
otherwise if `H - D > 0` the outcome is `alive` with HP reduced by exactly
`D`; otherwise (`H <= D`): a creature that is not dying and does not make
death saves is `dead`; a creature that is not dying and makes death saves
becomes `unconscious` and `dying` with HP floored at 0, outcome
`knocked_out`; a creature already dying gains 1 failed death save (2 on a
critical hit), with outcome `dead` once failures reach 3 and `still_dying`
otherwise. -/
theorem take_damage_spec (c : Creature) (damage : AttackDamage) (crit : Bool) :
    (damageTotal damage - c.hp > c.max_hp →
        (take_damage c damage crit).2 = DamageOutcome.instant_death
        ∧ Condition.dead ∈ (take_damage c damage crit).1.conditions)
      ∧ (damageTotal damage < c.hp →
          (take_damage c damage crit).2 = DamageOutcome.alive
          ∧ (take_damage c damage crit).1.hp = c.hp - damageTotal damage)
      ∧ (damageTotal damage - c.hp ≤ c.max_hp → c.hp ≤ damageTotal damage →
          Condition.dying ∉ c.conditions → c.make_death_saves = false →
          (take_damage c damage crit).2 = DamageOutcome.dead
          ∧ Condition.dead ∈ (take_damage c damage crit).1.conditions)
      ∧ (damageTotal damage - c.hp ≤ c.max_hp → c.hp ≤ damageTotal damage →
          Condition.dying ∉ c.conditions → c.make_death_saves = true →
          (take_damage c damage crit).2 = DamageOutcome.knocked_out
          ∧ (take_damage c damage crit).1.hp = 0
          ∧ Condition.dying ∈ (take_damage c damage crit).1.conditions
          ∧ Condition.unconscious ∈ (take_damage c damage crit).1.conditions)
      ∧ (damageTotal damage - c.hp ≤ c.max_hp → c.hp ≤ damageTotal damage →
          Condition.dying ∈ c.conditions →
          (take_damage c damage crit).1.death_save_failures
              = c.death_save_failures + (if crit then 2 else 1)
          ∧ (c.death_save_failures + (if crit then 2 else 1) ≥ 3 →
              (take_damage c damage crit).2 = DamageOutcome.dead
              ∧ Condition.dead ∈ (take_damage c damage crit).1.conditions)
          ∧ (c.death_save_failures + (if crit then 2 else 1) < 3 →
              (take_damage c damage crit).2 = DamageOutcome.still_dying)) :=
  ⟨td_instant_death c damage crit,
   td_alive c damage crit,
   fun hex hko hdy hmd => td_outright_dead c damage crit hex hko hdy hmd,
   fun hex hko hdy hmd => td_knocked_out c damage crit hex hko hdy hmd,
   fun hex hko hdy => td_already_dying c damage crit hex hko hdy⟩

theorem take_damage_spec_witness :
    (take_damage baseCreature [(DamageType.piercing, 25)] false).2
        = DamageOutcome.instant_death
      ∧ Condition.dead ∈
        (take_damage baseCreature [(DamageType.piercing, 25)] false).1.conditions :=
  (take_damage_spec baseCreature [(DamageType.piercing, 25)] false).1 (by decide)

/-- C6: the death-save d20 table holds except for stabilisation, which
crashes.  For the concrete dying creature at 0 HP: a 1 adds two failures,
a 2-9 adds one failure, a 10-19 adds one success (conditions untouched), a
20 heals to 1 HP and clears `dying` and `unconscious` with the tally
reset, and a third accumulated failure kills (sets `dead`, clears
`dying`); but a third success evaluates the nonexistent `Condition.stable`
(creature.py line 469) and raises `AttributeError` before clearing
`dying` or resetting the tally, so the claimed stabilisation never
happens. -/
theorem death_save_outcomes :
    roll_death_save dyingCreature 1
        = Except.ok ({ dyingCreature with death_save_failures := 2 },
            some DeathSaveResult.critical_failure)
      ∧ roll_death_save dyingCreature 5
          = Except.ok ({ dyingCreature with death_save_failures := 1 },
              some DeathSaveResult.failure)
      ∧ roll_death_save dyingCreature 10
          = Except.ok ({ dyingCreature with death_save_successes := 1 },
              some DeathSaveResult.success)
      ∧ roll_death_save dyingCreature 20
          = Except.ok ({ dyingCreature with hp := 1, conditions := [] },
              some DeathSaveResult.critical_success)
      ∧ roll_death_save almostDeadCreature 5
          = Except.ok ({ almostDeadCreature with
                death_save_failures := 3
                conditions := [Condition.dead] },
              some DeathSaveResult.death)
      ∧ roll_death_save stabilisingCreature 10 = Except.error () :=
  ⟨rfl, rfl, rfl, rfl, rfl, rfl⟩

theorem specInvariant_take_damage (c : Creature) (hInv : specInvariant c)
    (hdead : Condition.dead ∉ c.conditions) (damage : AttackDamage)
    (crit : Bool) : specInvariant (take_damage c damage crit).1 := by
  obtain ⟨hle, h0, hnd⟩ := hInv
  unfold take_damage
  dsimp only
  repeat' split
  all_goals dsimp only
  all_goals unfold specInvariant
  all_goals refine ⟨?_, fun hz => ?_, ?_⟩
  all_goals simp_all [die, mem_condInsert, mem_condErase]
  all_goals try omega

theorem specInvariant_heal (c : Creature) (hInv : specInvariant c)
    (hmax : 1 ≤ c.max_hp) (amount : Nat) (ha : 1 ≤ amount) (wake_up : Bool) :
    specInvariant (heal c amount wake_up) := by
  obtain ⟨hle, h0, hnd⟩ := hInv
  unfold heal specInvariant
  dsimp only
  refine ⟨by simp, fun hz => ?_, ?_⟩
  · exfalso
    simp only [min_eq_iff] at hz
    omega
  · cases wake_up <;> simp [mem_condErase]

theorem specInvariant_death_save_step (c : Creature) (hInv : specInvariant c)
    (hmax : 1 ≤ c.max_hp) (d20 : Nat) (r : Creature × Option DeathSaveResult)
    (h : death_save_step c d20 = Except.ok r) : specInvariant r.1 := by
  obtain ⟨hle, h0, hnd⟩ := hInv
  unfold death_save_step reset_death_saves heal at h
  dsimp only at h
  repeat' split at h
  all_goals try exact Except.noConfusion h
  all_goals injection h with h1
  all_goals subst h1
  all_goals unfold specInvariant
  all_goals refine ⟨?_, fun hz => ?_, ?_⟩
  all_goals simp_all [mem_condInsert, mem_condErase]

theorem specInvariant_roll_death_save (c : Creature) (hInv : specInvariant c)
    (hmax : 1 ≤ c.max_hp) (d20 : Nat) (r : Creature × Option DeathSaveResult)
    (h : roll_death_save c d20 = Except.ok r) : specInvariant r.1 := by
  unfold roll_death_save at h
  split at h
  · exact Except.noConfusion h
  · rename_i c1 result heq
    have hs := specInvariant_death_save_step c hInv hmax d20 _ heq
    split at h
    · injection h with h1
      subst h1
      refine ⟨hs.1, fun hz => ?_, ?_⟩
      · exact Or.inr (by simp [mem_die])
      · simp [mem_die]
    · injection h with h1
      subst h1
      exact hs

theorem specInvariant_start_turn (c : Creature) (hInv : specInvariant c)
    (hmax : 1 ≤ c.max_hp) (d20 : Nat) (c1 : Creature)
    (h : start_turn c d20 = Except.ok c1) : specInvariant c1 := by
  unfold start_turn at h
  dsimp only at h
  split at h
  · split at h
    · exact Except.noConfusion h
    · rename_i r heq
      injection h with h1
      subst h1
      exact specInvariant_roll_death_save
        ({ c with
            remaining_movement := c.speed
            attack_used := false
            weapons_used_this_turn := ([] : List String)
            bonus_action_used := false
            reaction_used := false } : Creature)
        ⟨hInv.1, hInv.2.1, hInv.2.2⟩ hmax d20 r heq
  · injection h with h1
    subst h1
    exact ⟨hInv.1, hInv.2.1, hInv.2.2⟩

theorem specInvariant_spawn (c : Creature) (raw : Int) (d20 : Nat)
    (hmax : 1 ≤ c.max_hp) (c1 : Creature)
    (h : spawn c raw d20 = Except.ok c1) : specInvariant c1 := by
  unfold spawn at h
  dsimp only at h
  by_cases hd : c.has_hit_dice = true
  · rw [if_pos hd] at h
    split at h
    · exact Except.noConfusion h
    · rename_i c2 heq
      injection h with h1
      subst h1
      have hf := start_turn_fields _ d20 _ heq
      unfold specInvariant
      dsimp only
      refine ⟨?_, fun hz => ?_, by simp⟩
      · exact le_of_eq ((hf.2.2.2.2.2.2.2 rfl).trans hf.1.symm)
      · exfalso
        have h1f : c2.hp = roll_hit_points raw := hf.2.2.2.2.2.2.2 rfl
        have h2f : 1 ≤ roll_hit_points raw := by
          unfold roll_hit_points
          omega
        omega
  · rw [if_neg hd] at h
    split at h
    · exact Except.noConfusion h
    · rename_i c2 heq
      injection h with h1
      subst h1
      have hf := start_turn_fields _ d20 _ heq
      unfold specInvariant
      dsimp only
      refine ⟨?_, fun hz => ?_, by simp⟩
      · exact le_of_eq ((hf.2.2.2.2.2.2.2 rfl).trans hf.1.symm)
      · exfalso
        have h1f : c2.hp = c.max_hp := hf.2.2.2.2.2.2.2 rfl
        omega

/-- C2 counterexample: three concrete violations of the claimed
invariant preservation, one for each proviso of the amendment.  `heal`
with amount 0 on an unconscious dying creature at 0 HP strips `dying`
while HP stays 0; `heal` with a positive amount does the same on a
creature whose max HP is 0; and `take_damage` on a creature that already
has the `dead` condition adds `dying` next to `dead`. -/
theorem spec_invariant_not_preserved :
    (specInvariant dyingCreature ∧ ¬ specInvariant (heal dyingCreature 0 true))
      ∧ (specInvariant zeroMaxCreature
          ∧ ¬ specInvariant (heal zeroMaxCreature 5 true))
      ∧ (specInvariant deadCreature
          ∧ ¬ specInvariant
              (take_damage deadCreature [(DamageType.slashing, 1)] false).1) :=
  ⟨⟨by decide, by decide⟩, ⟨by decide, by decide⟩, ⟨by decide, by decide⟩⟩

/-- C2 as amended: for a creature with `max_hp >= 1` satisfying the spec's
invariant (`0 <= current_hp <= max_hp`; `current_hp == 0` implies `dying`
or `dead`; never `dead` and `dying` together), the invariant is preserved
by `take_damage` when the creature is not already dead, by `heal` with a
positive amount, and by `roll_death_save`, `start_turn` and `spawn`
whenever they return normally (the third-success stabilisation branch
raises instead of producing a state).  Each proviso is forced by one of
the violations in the counterexample. -/
theorem spec_invariant_preserved (c : Creature) (hInv : specInvariant c)
    (hmax : 1 ≤ c.max_hp) :
    (∀ damage crit, Condition.dead ∉ c.conditions →
        specInvariant (take_damage c damage crit).1)
      ∧ (∀ amount wake_up, 1 ≤ amount → specInvariant (heal c amount wake_up))
      ∧ (∀ d20 r, roll_death_save c d20 = Except.ok r → specInvariant r.1)
      ∧ (∀ d20 c1, start_turn c d20 = Except.ok c1 → specInvariant c1)
      ∧ (∀ raw d20 c1, spawn c raw d20 = Except.ok c1 → specInvariant c1) :=
  ⟨fun damage crit hdead => specInvariant_take_damage c hInv hdead damage crit,
   fun amount wake_up ha => specInvariant_heal c hInv hmax amount ha wake_up,
   fun d20 r h => specInvariant_roll_death_save c hInv hmax d20 r h,
   fun d20 c1 h => specInvariant_start_turn c hInv hmax d20 c1 h,
   fun raw d20 c1 h => specInvariant_spawn c raw d20 hmax c1 h⟩

theorem spec_invariant_preserved_witness :
    specInvariant (heal baseCreature 3 true)
      ∧ specInvariant (take_damage baseCreature
          [(DamageType.slashing, 4)] false).1 :=
  ⟨(spec_invariant_preserved baseCreature (by decide) (by decide)).2.1
      3 true (by decide),
   (spec_invariant_preserved baseCreature (by decide) (by decide)).1
      [(DamageType.slashing, 4)] false (by decide)⟩

/-- C4: when a creature's turn begins while it is dead (here: a dying
creature with two failed death saves fails its third save at the start of
its turn), `take_turn` returns the enemy object, which is truthy, so
`run_encounter` returns `creature` - the creature that just died - as the
winner, not the surviving enemy, whatever the rest of the turn logic
does.  (A run that raises or ends without a winner makes the check false,
so the theorem also certifies this run returns normally.) -/
theorem dead_creature_reported_winner (action : ActionPhase) :
    winnerIsDeadCreature (run_encounter action (fun _ => 5) 10
      { c1 := almostDeadCreature, c2 := baseCreature }) = true := rfl

end DndSim
